import Mathlib

/-!
Verification of the image-generation backend (Express service).

This file gives a shallow embedding of the value-level logic of the
backend source (`src/backend/server.js` and the unnamed variant
`src/unnamed/part_000`): the request-count clamp, the Gemini
single-image retry loop, the sequential multi-image orchestration, the
`/generate-auto` fallback ladder and prompt stage, the Firestore
persistence paths, the style prompt builder and the gallery filter.

External effects (HTTP fetch, Firestore, timers, logging) are modelled
by explicit oracle functions (`Nat → Except String _` for the upstream
responses, `Nat → Except String Unit` for document-store writes);
the JavaScript string and number builtins used by the source are
modelled by executable Lean functions over `List Char` and `ℚ`.
-/

/-! ## JavaScript primitives -/

/-- The JavaScript expression `x || d` for a possibly-absent string `x`:
an absent value (`undefined`) or the empty string are falsy and yield
the default `d`. -/
def jsOrStr (x : Option String) (d : String) : String :=
  match x with
  | some s => if s = "" then d else s
  | none => d

/-- The JavaScript expression `x || d` for a possibly-absent number `x`:
an absent value or `0` is falsy and yields the default `d`. -/
def jsOrNat (x : Option Nat) (d : Nat) : Nat :=
  match x with
  | some n => if n = 0 then d else n
  | none => d

/-- The JavaScript `String.prototype.startsWith`, over the character
sequences of the two strings. -/
def jsStartsWith (s p : String) : Bool :=
  p.data.isPrefixOf s.data

/-- The JavaScript `String.prototype.includes`, over the character
sequences of the two strings. -/
def jsIncludes (s sub : String) : Bool :=
  decide (sub.data <:+: s.data)

/-- Drop JavaScript whitespace from both ends of a character list
(model of `String.prototype.trim`). -/
def trimChars (l : List Char) : List Char :=
  ((l.dropWhile Char.isWhitespace).reverse.dropWhile Char.isWhitespace).reverse

/-- The JavaScript `String.prototype.trim`. -/
def jsTrim (s : String) : String :=
  String.mk (trimChars s.data)

/-- Take the first `n` characters (model of `String.prototype.slice(0, n)`). -/
def jsSlice (s : String) (n : Nat) : String :=
  String.mk (s.data.take n)

/-- A JavaScript value as it can arrive in a JSON request body (or be
absent from it).  `num` carries a finite number, `nan` a number that is
`NaN` or infinite (`Number.isFinite` false). -/
inductive JSValue where
  | num (q : ℚ)
  | nan
  | str (s : String)
  | boolean (b : Bool)
  | undef
  | jsNull
deriving DecidableEq

/-- All characters are decimal digits (true for the empty list). -/
def isDigitList (l : List Char) : Bool :=
  l.all Char.isDigit

/-- Numeric value of a decimal digit list. -/
def digitsVal (l : List Char) : Nat :=
  l.foldl (fun n c => 10 * n + (c.toNat - 48)) 0

/-- Split a character list at every `.`. -/
def splitOnDot : List Char → List (List Char)
  | [] => [[]]
  | c :: cs =>
    if c = '.' then [] :: splitOnDot cs
    else
      match splitOnDot cs with
      | [] => [[c]]
      | g :: gs => (c :: g) :: gs

/-- The `Number(s)` conversion of a sign-stripped, trimmed, nonempty
string: an unsigned decimal literal `digits`, `digits.digits`,
`digits.` or `.digits` is parsed; every other string (including
`Infinity`) yields `none`, i.e. a value on which `Number.isFinite` is
false. -/
def jsStringToNumberCore (t : List Char) : Option ℚ :=
  match splitOnDot t with
  | [i] =>
    if decide (i ≠ []) && isDigitList i then some (mkRat (digitsVal i) 1) else none
  | [i, f] =>
    if isDigitList i && isDigitList f && !(decide (i = []) && decide (f = [])) then
      some (mkRat (digitsVal i * 10 ^ f.length + digitsVal f) (10 ^ f.length))
    else none
  | _ => none

/-- The JavaScript `Number(s)` conversion of a string, for decimal
literals: `some q` is a finite result, `none` stands for a result on
which `Number.isFinite` is false. -/
def jsStringToNumber (s : String) : Option ℚ :=
  let t := trimChars s.data
  if t = [] then some 0
  else
    match t with
    | '-' :: rest => (jsStringToNumberCore rest).map (fun q => -q)
    | '+' :: rest => jsStringToNumberCore rest
    | _ => jsStringToNumberCore t

/-- The JavaScript `Number(value)` conversion: `some q` is a finite
result, `none` a result on which `Number.isFinite` is false. -/
def jsToNumber : JSValue → Option ℚ
  | .num q => some q
  | .nan => none
  | .str s => jsStringToNumber s
  | .boolean b => some (if b then 1 else 0)
  | .undef => none
  | .jsNull => some 0

/-- JavaScript falsiness of a value: `0`, `NaN`, the empty string,
`false`, `undefined` and `null` are falsy. -/
def jsFalsy : JSValue → Bool
  | .num q => decide (q = 0)
  | .nan => true
  | .str s => decide (s = "")
  | .boolean b => !b
  | .undef => true
  | .jsNull => true

/-- The JavaScript `Math.round(q)` for a finite number: round half
towards positive infinity, i.e. `⌊q + 1/2⌋`, computed as the flooring
integer division `(2 q.num + q.den) fdiv (2 q.den)`. -/
def jsRound (q : ℚ) : ℤ :=
  Int.fdiv (2 * q.num + (q.den : ℤ)) (2 * (q.den : ℤ))

/-! ## Request-count clamp (`clampNumberOfImages`, both variants) -/

/-- `const MAX_IMAGES = 4` from the source. -/
def MAX_IMAGES : Nat := 4

/-- `clampNumberOfImages` from the source:
`Number(value)` not finite gives `1`, otherwise
`Math.min(Math.max(Math.round(numeric), 1), MAX_IMAGES)`. -/
def clampNumberOfImages (value : JSValue) : ℤ :=
  match jsToNumber value with
  | none => 1
  | some numeric => min (max (jsRound numeric) 1) (MAX_IMAGES : ℤ)

/-- The clamped count as a natural number (the source value is always
in `[1, 4]`). -/
def clampedCount (value : JSValue) : Nat :=
  (clampNumberOfImages value).toNat

/-- The `POST /generate` handler line
`const safeNumberOfImages = clampNumberOfImages(numberOfImages || 4)`:
a falsy `numberOfImages` field is replaced by `4` before clamping. -/
def safeNumberOfImages (numberOfImages : JSValue) : ℤ :=
  clampNumberOfImages (if jsFalsy numberOfImages then JSValue.num 4 else numberOfImages)

/-! ## Gemini response parsing and single-image retry loop
(`generateSingleImage` inside `generateImagesWithGeminiSimple`) -/

/-- The inline-data part of a Gemini response
(`part.inline_data || part.inlineData`; the two JSON spellings are
modelled as one field, likewise `mime_type || mimeType`). -/
structure InlineData where
  data : Option String
  mimeType : Option String
deriving DecidableEq

/-- A content part of a Gemini candidate. -/
structure GeminiPart where
  inlineData : Option InlineData
  text : Option String
deriving DecidableEq

/-- A Gemini candidate: `cand.content.parts` (an absent content or
parts field is the empty list, as in `cand?.content?.parts || []`). -/
structure Candidate where
  parts : List GeminiPart
deriving DecidableEq

/-- The top-level error object of a Gemini response, carrying
`error.message`. -/
structure GeminiError where
  message : Option String
deriving DecidableEq

/-- A parsed Gemini generateContent response body
(`data.candidates` absent or non-array is the empty list). -/
structure GeminiResponse where
  error : Option GeminiError
  candidates : List Candidate
deriving DecidableEq

/-- The text fallback inside the part scan:
`typeof part.text === "string" && part.text.startsWith("data:image/")`. -/
def partTextImageUrl (p : GeminiPart) : Option String :=
  match p.text with
  | some t => if jsStartsWith t "data:image/" then some t else none
  | none => none

/-- Scan of one part: prefer a truthy `inlineData.data` (rebuilt into a
data URL with the mime type defaulted to `image/png`), else fall back
to a `data:image/` text part. -/
def partImageUrl (p : GeminiPart) : Option String :=
  match p.inlineData with
  | some idata =>
    match idata.data with
    | some d =>
      if d = "" then partTextImageUrl p
      else some ("data:" ++ jsOrStr idata.mimeType "image/png" ++ ";base64," ++ d)
    | none => partTextImageUrl p
  | none => partTextImageUrl p

/-- First image payload found, in candidate order then part order
(the `break` structure of the nested scan loops). -/
def findImageUrl (candidates : List Candidate) : Option String :=
  candidates.findSome? (fun cand => cand.parts.findSome? partImageUrl)

/-- One upstream attempt: a rejected fetch / JSON parse is an error;
a response with a truthy `error` field throws
`error.message || "Generation failed"`; otherwise the candidate scan
must find an image or the attempt throws `"No image found in
response"`. -/
def attemptOnce (resp : Except String GeminiResponse) : Except String String :=
  match resp with
  | .error e => .error e
  | .ok data =>
    match data.error with
    | some err => .error (jsOrStr err.message "Generation failed")
    | none =>
      match findImageUrl data.candidates with
      | some url => .ok url
      | none => .error "No image found in response"

/-- The `for (let attempt = 1; attempt <= 2; attempt += 1)` retry loop
of `generateSingleImage`.  `upstream k` is the response of the `k`-th
upstream call (counted from 0); the returned `Nat` is the number of
upstream calls made.  A failed attempt records the error in
`lastError` and retries; once the budget is exhausted the loop throws
`lastError || new Error("Image generation failed")`. -/
def attemptLoop (upstream : Nat → Except String GeminiResponse) :
    Nat → Nat → Option String → Except String String × Nat
  | 0, k, lastError => (.error (lastError.getD "Image generation failed"), k)
  | b + 1, k, _lastError =>
    match attemptOnce (upstream k) with
    | .ok url => (.ok url, k + 1)
    | .error e => attemptLoop upstream b (k + 1) (some e)

/-- `generateSingleImage`: at most 2 attempts, starting with zero calls
made and no recorded error. -/
def generateSingleImage (upstream : Nat → Except String GeminiResponse) :
    Except String String × Nat :=
  attemptLoop upstream 2 0 none

/-! ## Sequential multi-image orchestration
(`generateImagesWithGemini`, hardened variant) -/

/-- The sequential `for (let i = 0; i < safeCount; i++)` loop of the
hardened `generateImagesWithGemini`.  `gen i` is the outcome of the
`generateSingleImage()` call for image `i`.  On failure the error is
rethrown only when no image has been collected yet; otherwise it is
logged and the loop continues.  After the loop an empty collection
throws `"Failed to generate any images"`. -/
def seqLoop (gen : Nat → Except String String) :
    Nat → Nat → List String → Except String (List String)
  | 0, _, images =>
    if images.isEmpty then .error "Failed to generate any images" else .ok images
  | n + 1, i, images =>
    match gen i with
    | .ok img => seqLoop gen n (i + 1) (images ++ [img])
    | .error e => if images.isEmpty then .error e else seqLoop gen n (i + 1) images

/-- The hardened `generateImagesWithGemini` orchestration: clamp the
requested count, then generate sequentially. -/
def generateImagesWithGeminiSeq (gen : Nat → Except String String)
    (numberOfImages : JSValue) : Except String (List String) :=
  seqLoop gen (clampedCount numberOfImages) 0 []

/-! ## `/generate-auto` fallback ladder (`tryGenerate` / `countsToTry` loop) -/

/-- `Array.from(new Set(arr))`: deduplicate, keeping the first
occurrence of each element in order.  `seen` is the set built so
far. -/
def jsSetDedupAux (seen : List String) : List String → List String
  | [] => []
  | x :: xs =>
    if x ∈ seen then jsSetDedupAux seen xs
    else x :: jsSetDedupAux (x :: seen) xs

/-- `Array.from(new Set(arr))` on an array of strings. -/
def jsSetDedup (l : List String) : List String :=
  jsSetDedupAux [] l

/-- `const requestedCount = 2` of the `/generate-auto` handler (auto
mode is fixed to 2 images). -/
def requestedCountAuto : Nat := 2

/-- `const countsToTry = [requestedCount, 1].filter((c) => c >= 1 && c <= MAX_IMAGES)`. -/
def countsToTry : List Nat :=
  [requestedCountAuto, 1].filter (fun c => decide (1 ≤ c) && decide (c ≤ MAX_IMAGES))

/-- `tryGenerate(count)`: run the generation client at `count`
(`genAt count` is its outcome), deduplicate the returned data URLs and
keep at most `count` of them.  A rejected generation call
propagates. -/
def tryGenerate (genAt : Nat → Except String (List String)) (count : Nat) :
    Except String (List String) :=
  match genAt count with
  | .error e => .error e
  | .ok urls => .ok ((jsSetDedup urls).take count)

/-- Outcome of the `/generate-auto` handler as observed by the HTTP
client: a success payload of image URLs, or a failure status with a
message. -/
inductive AutoGenOutcome where
  | success (imageUrls : List String)
  | failure (status : Nat) (message : String)
deriving DecidableEq

/-- The `for (const c of countsToTry)` loop: on a successful
`tryGenerate` with a nonempty result, break with those images; on an
empty result, continue; on a throw, record the error in `lastError`
and continue.  Returns the final `(finalImages, lastError)` pair. -/
def autoLadderLoop (genAt : Nat → Except String (List String)) :
    List Nat → List String → Option String → List String × Option String
  | [], finalImages, lastError => (finalImages, lastError)
  | c :: rest, finalImages, lastError =>
    match tryGenerate genAt c with
    | .ok imgs =>
      if imgs.isEmpty then autoLadderLoop genAt rest imgs lastError
      else (imgs, lastError)
    | .error e => autoLadderLoop genAt rest finalImages (some e)

/-- The `/generate-auto` fallback ladder: run the loop over
`countsToTry`; if no images were obtained respond
`502 (lastError?.message || "Image model returned no images")`,
otherwise succeed with the images. -/
def generateAutoOutcome (genAt : Nat → Except String (List String)) : AutoGenOutcome :=
  let res := autoLadderLoop genAt countsToTry [] none
  if res.1.isEmpty then
    .failure 502 (jsOrStr res.2 "Image model returned no images")
  else .success res.1

/-- An attempt of the ladder "yields zero images": it returned an empty
list, or it threw. -/
def yieldsZero (r : Except String (List String)) : Prop :=
  r = .ok [] ∨ ∃ e, r = .error e

/-- The `lastError` value left by the ladder loop when both attempts
yielded zero images, as a function of the two attempt outcomes
(`t2` at count 2 first, then `t1` at count 1). -/
def ladderLastError (t2 t1 : Except String (List String)) : Option String :=
  match t1 with
  | .error e => some e
  | .ok _ =>
    match t2 with
    | .error e => some e
    | .ok _ => none

/-! ## `/generate-auto` prompt stage (ChatGPT call handling) -/

/-- The error object of a chat-completion response, carrying
`error.message`. -/
structure ChatError where
  message : Option String
deriving DecidableEq

/-- A parsed chat-completion response:  `content` is the value of the
optional chain `chatData?.choices?.[0]?.message?.content` (before
trimming). -/
structure ChatData where
  error : Option ChatError
  content : Option String
deriving DecidableEq

/-- What the prompt stage of `/generate-auto` decides: fail the whole
request with an HTTP status and message, or proceed to image
generation with the final prompt. -/
inductive PromptStageResult where
  | fail (status : Nat) (message : String)
  | proceed (finalPrompt : String)
deriving DecidableEq

/-- The fixed requirements block appended to the normalized prompt in
`/generate-auto`. -/
def autoRequirementsText : String :=
  "Requirements: single person only (no other humans), be faithful to the original face (preserve the same eyes, face shape, hair style/color/length, and skin tone from the reference selfies), keep the SAME clothing style/colors/formality as selfies (no costumes/suits if not in selfies), photorealistic and faithful to the original face, sharp focus, professional lighting, aspect ratio 1:1 or 4:5, no watermarks."

/-- Collapse every run of whitespace to a single space
(`replace(/\s+/g, " ")`).  `inRun` records whether the previous
character was part of a whitespace run. -/
def collapseWsAux : Bool → List Char → List Char
  | _, [] => []
  | inRun, c :: cs =>
    if c.isWhitespace then
      if inRun then collapseWsAux true cs else ' ' :: collapseWsAux true cs
    else c :: collapseWsAux false cs

/-- `s.replace(/\s+/g, " ")`. -/
def jsCollapseWhitespace (s : String) : String :=
  String.mk (collapseWsAux false s.data)

/-- `optimizedPrompt.replace(/\s+/g, " ").trim().slice(0, 700)`. -/
def normalizePrompt (optimizedPrompt : String) : String :=
  jsSlice (jsTrim (jsCollapseWhitespace optimizedPrompt)) 700

/-- The prompt stage of `/generate-auto`: a truthy `chatData.error`
fails the request with
`500 (chatData.error.message || "Prompt generation failed")`; a falsy
`optimizedPrompt` (absent content, or content trimming to the empty
string) fails it with `500 "No prompt returned by ChatGPT"`; otherwise
the final prompt is the normalized prompt followed by the fixed
requirements block. -/
def promptStage (chat : ChatData) : PromptStageResult :=
  match chat.error with
  | some err => .fail 500 (jsOrStr err.message "Prompt generation failed")
  | none =>
    match chat.content with
    | none => .fail 500 "No prompt returned by ChatGPT"
    | some c =>
      let optimizedPrompt := jsTrim c
      if optimizedPrompt = "" then .fail 500 "No prompt returned by ChatGPT"
      else .proceed (normalizePrompt optimizedPrompt ++ "\n" ++ autoRequirementsText)

/-- The `/generate-auto` handler after input validation: the prompt
stage either fails the request (image generation is never attempted —
the outcome does not depend on `genAt`), or generation runs the
fallback ladder with the final prompt. -/
def generateAutoEndpoint (chat : ChatData)
    (genAt : String → Nat → Except String (List String)) : AutoGenOutcome :=
  match promptStage chat with
  | .fail s m => .failure s m
  | .proceed finalPrompt => generateAutoOutcome (genAt finalPrompt)

/-! ## Firestore persistence (`saveImagesToFirestore`, both variants) -/

/-- A document written to the `images` collection.  Only the fields the
claims are about are modelled: the owner email and the stored `url`
value (timestamps and spread metadata are elided). -/
structure ImageRecord where
  email : String
  url : String
deriving DecidableEq

/-- A JavaScript `try { body } catch (e) { console.error(...) }` whose
catch block only logs: a thrown error is swallowed and execution
completes normally. -/
def jsCatchSwallow : Except String Unit → Except String Unit
  | .ok u => .ok u
  | .error _ => .ok ()

/-- The per-image loop of the object-storage variant of
`saveImagesToFirestore` (`src/backend/server.js`): an empty or
non-string value is skipped, a value starting with `data:image/` is
skipped, a value that is not an `http://` or `https://` URL is
skipped; otherwise `db.collection("images").add` is attempted
(`outcome k` is the result of the `k`-th attempted write) inside a
per-image try/catch that logs and continues on failure.  Returns the
records successfully written and the outcome of the loop body (which
never throws). -/
def saveStorageLoop (outcome : Nat → Except String Unit) (userEmail : String) :
    List String → Nat → List ImageRecord × Except String Unit
  | [], _ => ([], .ok ())
  | u :: rest, k =>
    if u = "" then saveStorageLoop outcome userEmail rest k
    else if jsStartsWith u "data:image/" then saveStorageLoop outcome userEmail rest k
    else if !jsStartsWith u "http://" && !jsStartsWith u "https://" then
      saveStorageLoop outcome userEmail rest k
    else
      match outcome k with
      | .ok _ =>
        ((⟨userEmail, u⟩ : ImageRecord) :: (saveStorageLoop outcome userEmail rest (k + 1)).1,
          (saveStorageLoop outcome userEmail rest (k + 1)).2)
      | .error _ => saveStorageLoop outcome userEmail rest (k + 1)

/-- The object-storage variant of `saveImagesToFirestore`: early return
on an empty list, otherwise run the write loop with
`email || "anonymous"` under the outer try/catch that swallows every
error.  Returns the records written to the document store and the
function result. -/
def saveImagesToFirestore (outcome : Nat → Except String Unit) (email : Option String)
    (imageUrls : List String) : List ImageRecord × Except String Unit :=
  if imageUrls.isEmpty then ([], .ok ())
  else
    ((saveStorageLoop outcome (jsOrStr email "anonymous") imageUrls 0).1,
      jsCatchSwallow (saveStorageLoop outcome (jsOrStr email "anonymous") imageUrls 0).2)

/-- The truncation guard of the inline-storage variant
(`src/unnamed/part_000`): a value longer than 800000 characters is cut
to 500000 characters and marked. -/
def truncateForFirestore (imageUrl : String) : String :=
  if imageUrl.length > 800000 then jsSlice imageUrl 500000 ++ "...[truncated]"
  else imageUrl

/-- The write loop of the inline-storage variant: every value is
written (after the truncation guard) with no per-image catch, so a
failing write aborts the rest of the loop and rethrows. -/
def saveInlineLoop (outcome : Nat → Except String Unit) (userEmail : String) :
    List String → Nat → List ImageRecord × Except String Unit
  | [], _ => ([], .ok ())
  | u :: rest, k =>
    match outcome k with
    | .ok _ =>
      ((⟨userEmail, truncateForFirestore u⟩ : ImageRecord)
          :: (saveInlineLoop outcome userEmail rest (k + 1)).1,
        (saveInlineLoop outcome userEmail rest (k + 1)).2)
    | .error e => ([], .error e)

/-- The inline-storage variant of `saveImagesToFirestore`: the whole
loop is inside one try/catch that logs and swallows every error. -/
def saveImagesToFirestoreInline (outcome : Nat → Except String Unit) (email : Option String)
    (imageUrls : List String) : List ImageRecord × Except String Unit :=
  ((saveInlineLoop outcome (jsOrStr email "anonymous") imageUrls 0).1,
    jsCatchSwallow (saveInlineLoop outcome (jsOrStr email "anonymous") imageUrls 0).2)

/-! ## Style prompt builder (`addFidelityRequirements` and the style
switch of `POST /generate`) -/

/-- The fixed fidelity clause appended to every style prompt
(face/hair/skin-tone preservation, same clothing style, single-subject
constraint, photorealism directive). -/
def fidelityClauseText : String :=
  "Be faithful to the original face: preserve the same eyes (color, shape, expression), face shape, hair style/color/length, and skin tone from the reference photos. Keep the same clothing style, colors, and formality level as shown in the reference photos (do not add costumes or formal wear if not present in the original photos). Only the user should appear in the image‚Äîno other people or humans. Style: photorealistic and faithful to the original face."

/-- `addFidelityRequirements(basePrompt)`: the base prompt followed by
a space and the fidelity clause. -/
def addFidelityRequirements (basePrompt : String) : String :=
  basePrompt ++ " " ++ fidelityClauseText

/-- The base prompt of each branch of the `switch (style)` statement
of `POST /generate`, as a key-to-template table: every branch of the
source switch applies `addFidelityRequirements` to one of these base
strings. -/
def styleTable : List (String × String) :=
  [("professional_indoor",
    "Professional indoor portrait of the user, well-dressed, modern office or elegant workspace background, soft lighting, serious and credible style. Context: professional post, announcement, career advice."),
   ("professional_outdoor",
    "Professional outdoor portrait of the user, elegant outfit, pleasant landscape or modern building background, calm and composed atmosphere. Context: inspiring post, storytelling, leadership."),
   ("corporate_studio",
    "Corporate studio portrait of the user, neutral background, clean and sharp lighting, upright posture. Context: formal post, important announcement or public speaking."),
   ("modern_workspace",
    "Semi-casual portrait of the user in a modern workspace or coworking area, bright office ambiance, less formal outfit, visible work accessories. Context: productivity, organization, tips."),
   ("personal_office",
    "Casual portrait of the user in a personal office, intimate decor, visible personal objects, warm atmosphere. Context: authentic post, sharing experience."),
   ("street",
    "Casual portrait of the user in an urban street setting, casual outfit, slight movement in posture. Context: lifestyle post, storytelling."),
   ("working_computer",
    "Action portrait of the user working on a computer at a desk, focused look, laptop open and visible. Context: productive, technical focus."),
   ("writing_notes",
    "Action portrait of the user writing or taking notes, notebook and pen visible on a clear table, calm atmosphere. Context: methodology, reflection, coaching."),
   ("presenting_screen",
    "Action portrait of the user presenting something on screen, pointing gesture toward the computer, screen visible but content blurred. Context: tutorial, analysis, demonstration."),
   ("meeting",
    "Portrait of the user alone in a meeting setting, table or screen visible, no other people in the frame. Context: management, collaboration."),
   ("walking_street",
    "Portrait of the user walking in the street alone, natural movement, urban decor, energetic yet professional vibe. Context: motivation, rhythm, momentum."),
   ("selfie_transport",
    "Natural selfie of the user in train/car/transport, natural light, realistic position, simple background. Context: on-the-go, business travel."),
   ("selfie_office",
    "Natural selfie of the user at their desk, computer visible, coherent indoor decor. Context: remote work, workday."),
   ("selfie_outdoor",
    "Natural selfie of the user outdoors in nature or city, simple gesture (smile, thumbs up). Context: inspiration, storytelling."),
   ("selfie_pointing",
    "Natural selfie of the user pointing to an off-frame element or the screen, clear gesture for announcement or highlight. Context: announcement, showcasing something new."),
   ("coffee_break",
    "Casual portrait of the user drinking coffee or a beverage, relaxed mood, warm decor. Context: mood, professional routine."),
   ("eating",
    "Casual portrait of the user eating a snack or simple meal, authentic scene. Context: lifestyle, work-life balance."),
   ("software_interface",
    "Staged shot highlighting a software interface, computer or smartphone screen visible, clean ambiance, professional style. Context: demo, launch, product update."),
   ("app_showcase",
    "Stylized screen capture representation showing an application, immersive representation, modern composition. Context: tech post, announcement, promotion."),
   ("digital_product_context",
    "Digital product in a professional context, a hand using computer or smartphone, modern decor. Context: feature highlight."),
   ("product_neutral",
    "Physical product presented in a neutral decor, clean background, minimalist staging. Context: product presentation."),
   ("product_real_context",
    "Physical product highlighted in a real context (office, indoor, outdoor), natural light, immersive scene. Context: realistic showcase."),
   ("product_used",
    "Physical product being used by the user, visible interaction. Context: demonstration, real usage."),
   ("mentor_leader",
    "Inspiring mentor/leader portrait, symbolic staging, confident presence, motivational tone. Context: motivational posts."),
   ("creative_portrait",
    "Creative portrait with more pronounced colors, modern and graphic style, tasteful composition. Context: creative announcements."),
   ("subtle_humor",
    "Subtle humorous scene, natural gestures, light tone, professional yet approachable. Context: personal posts.")]

/-- The base prompt of the `default:` branch of the switch. -/
def defaultBasePrompt : String :=
  "Realistic portrait of the user with a neutral background."

/-- The base prompt selected by the `switch (style)` statement: the
style key may be absent (`none`), and any unmatched key falls through
to the default neutral-portrait prompt. -/
def styleBase (style : Option String) : String :=
  match style with
  | some s =>
    match styleTable.find? (fun kv => decide (kv.1 = s)) with
    | some kv => kv.2
    | none => defaultBasePrompt
  | none => defaultBasePrompt

/-- The enumerated set of style keys of the switch. -/
def styleKeys : List String :=
  styleTable.map Prod.fst

/-- The full prompt produced by `POST /generate` for a style key:
every branch of the switch applies `addFidelityRequirements` to its
base prompt. -/
def buildStylePrompt (style : Option String) : String :=
  addFidelityRequirements (styleBase style)

/-! ## Gallery retrieval (`GET /gallery/:email`) -/

/-- A document of the `images` collection as read back by the gallery
endpoint; each modelled field may be absent.  The creation date is
modelled as an integer timestamp. -/
structure GalleryDoc where
  id : String
  url : Option String
  style : Option String
  prompt : Option String
  photosCount : Option Nat
  originalLength : Option Nat
  created_at : Int
deriving DecidableEq

/-- `const urlValue = data.url || ""`. -/
def galleryUrlValue (d : GalleryDoc) : String :=
  jsOrStr d.url ""

/-- The acceptance test of the gallery filter:
`urlValue && urlValue.length > 50 && urlValue.startsWith("data:image/")`. -/
def galleryAccepts (urlValue : String) : Bool :=
  !decide (urlValue = "") && decide (urlValue.length > 50)
    && jsStartsWith urlValue "data:image/"

/-- An entry of the `images` array returned by the gallery endpoint. -/
structure GalleryImage where
  id : String
  url : String
  style : String
  prompt : String
  photosCount : Nat
  created_at : Int
  isTruncated : Bool
  originalLength : Nat
deriving DecidableEq

/-- The object pushed to `images` for an accepted document, with the
same field defaults as the source
(`style || "unknown"`, `prompt || ""`, `photosCount || 1`,
`originalLength || urlValue.length`,
`isTruncated: urlValue.includes("[truncated]")`). -/
def docToImage (d : GalleryDoc) : GalleryImage :=
  { id := d.id,
    url := galleryUrlValue d,
    style := jsOrStr d.style "unknown",
    prompt := jsOrStr d.prompt "",
    photosCount := jsOrNat d.photosCount 1,
    created_at := d.created_at,
    isTruncated := jsIncludes (galleryUrlValue d) "[truncated]",
    originalLength := jsOrNat d.originalLength (galleryUrlValue d).length }

/-- The `imagesSnapshot.forEach` scan: accepted documents are pushed to
`images` in document order; every other document only increments
`omittedCount` (it is never an error). -/
def galleryScan : List GalleryDoc → List GalleryImage × Nat
  | [] => ([], 0)
  | d :: rest =>
    if galleryAccepts (galleryUrlValue d) then
      (docToImage d :: (galleryScan rest).1, (galleryScan rest).2)
    else
      ((galleryScan rest).1, (galleryScan rest).2 + 1)

/-- Stable insertion into a list sorted by creation date descending. -/
def insertByDate (x : GalleryImage) : List GalleryImage → List GalleryImage
  | [] => [x]
  | y :: ys =>
    if x.created_at ≤ y.created_at then y :: insertByDate x ys else x :: y :: ys

/-- The `images.sort((a, b) => dateB - dateA)` step: stable sort by
creation date, newest first. -/
def sortByDateDesc : List GalleryImage → List GalleryImage
  | [] => []
  | x :: xs => insertByDate x (sortByDateDesc xs)

/-- The success response of `GET /gallery/:email`:
`{ images, count: images.length, omittedCount }`. -/
structure GalleryResponse where
  images : List GalleryImage
  count : Nat
  omittedCount : Nat
deriving DecidableEq

/-- The gallery endpoint body after the Firestore query: scan the
documents, sort the accepted images by date, and answer with the
images, their count and the omitted count. -/
def galleryResponse (docs : List GalleryDoc) : GalleryResponse :=
  { images := sortByDateDesc (galleryScan docs).1,
    count := (sortByDateDesc (galleryScan docs).1).length,
    omittedCount := (galleryScan docs).2 }

/-! ## Theorems -/

/-- The clamped count is always at least 1. -/
theorem one_le_clampedCount (v : JSValue) : 1 ≤ clampedCount v := by
  unfold clampedCount clampNumberOfImages
  cases h : jsToNumber v with
  | none => simp
  | some q =>
    simp only
    generalize jsRound q = r
    have h4 : (MAX_IMAGES : ℤ) = 4 := by decide
    rw [h4]
    omega

/-- With a nonempty accumulator, the sequential loop always succeeds
and appends exactly the successful generations, in order. -/
theorem seqLoop_ok (gen : Nat → Except String String) :
    ∀ (n i : Nat) (acc : List String), acc ≠ [] →
      seqLoop gen n i acc =
        .ok (acc ++ (List.range' i n).filterMap (fun j => (gen j).toOption)) := by
  intro n
  induction n with
  | zero =>
    intro i acc hacc
    simp [seqLoop, hacc]
  | succ m ih =>
    intro i acc hacc
    rw [List.range'_succ]
    cases hg : gen i with
    | ok img =>
      have := ih (i + 1) (acc ++ [img]) (by simp)
      simp only [seqLoop, hg, this, List.filterMap_cons, Except.toOption]
      simp
    | error e =>
      have := ih (i + 1) acc hacc
      simp only [seqLoop, hg, List.isEmpty_eq_true, hacc, if_false, this,
        List.filterMap_cons, Except.toOption]

/-- Claim C6: for every input value `c` (number, non-numeric string, or
fraction), `clampNumberOfImages c` is in `{1,2,3,4}`; in particular
`clamp 0 = 1`, `clamp 7 = 4`, `clamp "abc" = 1` and `clamp 2.6 = 3`. -/
theorem clampNumberOfImages_spec :
    (∀ v : JSValue, clampNumberOfImages v = 1 ∨ clampNumberOfImages v = 2 ∨
      clampNumberOfImages v = 3 ∨ clampNumberOfImages v = 4)
    ∧ clampNumberOfImages (JSValue.num 0) = 1
    ∧ clampNumberOfImages (JSValue.num 7) = 4
    ∧ clampNumberOfImages (JSValue.str "abc") = 1
    ∧ clampNumberOfImages (JSValue.num 2.6) = 3 := by
  refine ⟨?_, by decide, by decide, by decide, ?_⟩
  · intro v
    unfold clampNumberOfImages
    cases h : jsToNumber v with
    | none => simp
    | some q =>
      simp only
      generalize jsRound q = r
      have h4 : (MAX_IMAGES : ℤ) = 4 := by decide
      rw [h4]
      omega
  · have h26 : (2.6 : ℚ) = mkRat 13 5 := by
      rw [Rat.mkRat_eq_div]
      norm_num
    rw [h26]
    decide

/-- Claim C10: at `POST /generate`, a falsy `numberOfImages` field
(absent, `0`, `NaN`, empty string, …) is treated as a request for 4
images, because the clamp is applied to `numberOfImages || 4`; so the
endpoint-level behaviour for input `0` is `4`, not the `1` that
`clampNumberOfImages 0` alone would give. -/
theorem safeNumberOfImages_falsy_default :
    (∀ v : JSValue, jsFalsy v = true → safeNumberOfImages v = 4)
    ∧ safeNumberOfImages (JSValue.num 0) = 4
    ∧ safeNumberOfImages JSValue.undef = 4
    ∧ clampNumberOfImages (JSValue.num 0) = 1 := by
  refine ⟨?_, by decide, by decide, by decide⟩
  intro v hv
  simp only [safeNumberOfImages, hv, if_pos]
  decide

/-- Witness for C10: the concrete falsy input `0` is mapped to 4 by the
endpoint-level count computation. -/
theorem safeNumberOfImages_falsy_default_witness :
    jsFalsy (JSValue.num 0) = true ∧ safeNumberOfImages (JSValue.num 0) = 4 :=
  ⟨by decide, safeNumberOfImages_falsy_default.1 (JSValue.num 0) (by decide)⟩

/-- Claim C1: a single-image generation call makes at most 2 upstream
attempts; if the upstream fails once then succeeds, exactly one image
is returned and exactly 2 upstream calls were made; if the upstream
always fails, the call raises the last error after exactly 2
attempts. -/
theorem generateSingleImage_retry_spec (upstream : Nat → Except String GeminiResponse) :
    (generateSingleImage upstream).2 ≤ 2
    ∧ (∀ e img, attemptOnce (upstream 0) = .error e →
        attemptOnce (upstream 1) = .ok img →
        generateSingleImage upstream = (.ok img, 2))
    ∧ (∀ e0 e1, attemptOnce (upstream 0) = .error e0 →
        attemptOnce (upstream 1) = .error e1 →
        generateSingleImage upstream = (.error e1, 2)) := by
  refine ⟨?_, ?_, ?_⟩
  · unfold generateSingleImage
    cases h0 : attemptOnce (upstream 0) with
    | ok u => simp [attemptLoop, h0]
    | error e =>
      cases h1 : attemptOnce (upstream 1) with
      | ok u => simp [attemptLoop, h0, h1]
      | error e1 => simp [attemptLoop, h0, h1, Option.getD]
  · intro e img h0 h1
    unfold generateSingleImage
    simp [attemptLoop, h0, h1]
  · intro e0 e1 h0 h1
    unfold generateSingleImage
    simp [attemptLoop, h0, h1, Option.getD]

/-- Concrete upstream for the C1 witness: the first call returns an
error response, the second call returns a response containing an
inline image. -/
def c1Upstream : Nat → Except String GeminiResponse := fun k =>
  if k = 0 then .ok { error := some { message := some "quota" }, candidates := [] }
  else
    .ok { error := none,
          candidates := [{ parts := [{ inlineData := some { data := some "AAAA", mimeType := some "image/png" }, text := none }] }] }

/-- Witness for C1: on a fail-once-then-succeed upstream, one image is
returned and exactly 2 calls were made. -/
theorem generateSingleImage_retry_spec_witness :
    generateSingleImage c1Upstream = (.ok "data:image/png;base64,AAAA", 2) :=
  (generateSingleImage_retry_spec c1Upstream).2.1 "quota" "data:image/png;base64,AAAA"
    rfl rfl

/-- Claim C2: in the sequential multi-image orchestration, an error
propagates only when zero images have succeeded (that is, only the
failure of the very first generated image is rethrown); if the first
image succeeded, failures of later images are swallowed and the
successful subset is returned in generation order. -/
theorem generateImagesWithGeminiSeq_partial_success (gen : Nat → Except String String)
    (numberOfImages : JSValue) :
    (∀ e, generateImagesWithGeminiSeq gen numberOfImages = .error e →
        gen 0 = .error e)
    ∧ (∀ img, gen 0 = .ok img →
        generateImagesWithGeminiSeq gen numberOfImages =
          .ok ((List.range (clampedCount numberOfImages)).filterMap
            (fun i => (gen i).toOption))) := by
  have hc : 1 ≤ clampedCount numberOfImages := one_le_clampedCount numberOfImages
  obtain ⟨m, hm⟩ : ∃ m, clampedCount numberOfImages = m + 1 :=
    ⟨clampedCount numberOfImages - 1, by omega⟩
  constructor
  · intro e herr
    unfold generateImagesWithGeminiSeq at herr
    rw [hm] at herr
    cases h0 : gen 0 with
    | ok img =>
      simp only [seqLoop, h0, Nat.zero_add, List.nil_append] at herr
      rw [seqLoop_ok gen m 1 [img] (by simp)] at herr
      exact absurd herr (by simp)
    | error e0 =>
      simp only [seqLoop, h0, List.isEmpty_nil, if_true] at herr
      exact congrArg Except.error (Except.error.inj herr)
  · intro img h0
    unfold generateImagesWithGeminiSeq
    rw [hm]
    simp only [seqLoop, h0, Nat.zero_add, List.nil_append]
    rw [seqLoop_ok gen m 1 [img] (by simp)]
    rw [List.range_eq_range', List.range'_succ]
    simp [List.filterMap_cons, h0, Except.toOption]

/-- Per-image outcomes for the C2 witness: image 2 of 3 fails, images
1 and 3 succeed. -/
def c2Gen : Nat → Except String String := fun i =>
  if i = 0 then .ok "img1" else if i = 1 then .error "timeout" else .ok "img3"

/-- Witness for C2: with 3 requested images where image 2 fails,
exactly 2 images are returned, in order, and no error is raised. -/
theorem generateImagesWithGeminiSeq_partial_success_witness :
    generateImagesWithGeminiSeq c2Gen (JSValue.num 3) = .ok ["img1", "img3"] := by
  have h := (generateImagesWithGeminiSeq_partial_success c2Gen (JSValue.num 3)).2 "img1" rfl
  rw [h]
  rfl

/-- Claim C3: the `/generate-auto` fallback ladder first attempts the
full requested count 2, then retries exactly once at count 1; the
first count yielding at least one unique image determines the result;
if both counts yield zero images the request fails with HTTP 502
carrying `lastError?.message || "Image model returned no images"`. -/
theorem generateAuto_fallback_ladder (genAt : Nat → Except String (List String)) :
    countsToTry = [requestedCountAuto, 1] ∧ requestedCountAuto = 2
    ∧ (∀ l, tryGenerate genAt 2 = .ok l → l ≠ [] →
        generateAutoOutcome genAt = .success l)
    ∧ (∀ l, yieldsZero (tryGenerate genAt 2) → tryGenerate genAt 1 = .ok l → l ≠ [] →
        generateAutoOutcome genAt = .success l)
    ∧ (yieldsZero (tryGenerate genAt 2) → yieldsZero (tryGenerate genAt 1) →
        generateAutoOutcome genAt =
          .failure 502 (jsOrStr (ladderLastError (tryGenerate genAt 2) (tryGenerate genAt 1))
            "Image model returned no images")) := by
  have hct : countsToTry = [2, 1] := by decide
  refine ⟨by decide, by decide, ?_, ?_, ?_⟩
  · intro l h2 hl
    simp [generateAutoOutcome, hct, autoLadderLoop, requestedCountAuto, h2, hl]
  · intro l hz h1 hl
    rcases hz with hz | ⟨e, hz⟩ <;>
      simp [generateAutoOutcome, hct, autoLadderLoop, requestedCountAuto, hz, h1, hl]
  · intro hz2 hz1
    rcases hz2 with hz2 | ⟨e2, hz2⟩ <;> rcases hz1 with hz1 | ⟨e1, hz1⟩ <;>
      simp [generateAutoOutcome, hct, autoLadderLoop, requestedCountAuto, hz2, hz1,
        ladderLastError]

/-- Mocked generation outcomes for the C3 witness: zero images at
count 2, one image at count 1. -/
def c3GenAt : Nat → Except String (List String) := fun c =>
  if c = 2 then .ok [] else .ok ["solo"]

/-- Witness for C3: zero images at count 2 and one image at count 1
give a final result of exactly 1 image. -/
theorem generateAuto_fallback_ladder_witness :
    generateAutoOutcome c3GenAt = .success ["solo"] :=
  (generateAuto_fallback_ladder c3GenAt).2.2.2.1 ["solo"] (Or.inl rfl) rfl (by decide)

/-- Claim C9: in auto mode, a chat-completion error, or a chat
completion returning no content, fails the whole `/generate-auto`
request with a 500 response carrying a descriptive message — the
upstream error message or a "No prompt returned" message — and image
generation is never attempted (the outcome is the same for every
generation oracle `genAt`). -/
theorem generateAuto_prompt_failure (chat : ChatData)
    (genAt : String → Nat → Except String (List String)) :
    (∀ err, chat.error = some err →
        generateAutoEndpoint chat genAt =
          .failure 500 (jsOrStr err.message "Prompt generation failed"))
    ∧ (chat.error = none → chat.content = none →
        generateAutoEndpoint chat genAt = .failure 500 "No prompt returned by ChatGPT")
    ∧ (∀ c, chat.error = none → chat.content = some c → jsTrim c = "" →
        generateAutoEndpoint chat genAt = .failure 500 "No prompt returned by ChatGPT") := by
  refine ⟨?_, ?_, ?_⟩
  · intro err herr
    simp [generateAutoEndpoint, promptStage, herr]
  · intro he hc
    simp [generateAutoEndpoint, promptStage, he, hc]
  · intro c he hc htrim
    simp [generateAutoEndpoint, promptStage, he, hc, htrim]

/-- Chat response for the C9 witness: the external call returned an
error object. -/
def c9Chat : ChatData :=
  { error := some { message := some "rate limited" }, content := none }

/-- Witness for C9: an upstream chat error fails the request with 500
and the upstream message, for a generation oracle that is never
consulted. -/
theorem generateAuto_prompt_failure_witness :
    generateAutoEndpoint c9Chat (fun _ _ => .error "unused") = .failure 500 "rate limited" := by
  have h := (generateAuto_prompt_failure c9Chat (fun _ _ => .error "unused")).1
    { message := some "rate limited" } rfl
  rw [h]
  rfl

/-- A string starting with `http://` or `https://` is not empty. -/
theorem ne_empty_of_jsStartsWith_http (u : String)
    (h : jsStartsWith u "http://" = true ∨ jsStartsWith u "https://" = true) :
    ¬ u = "" := by
  intro he
  subst he
  rcases h with h | h <;> exact absurd h (by decide)

/-- A string starting with `http://` or `https://` does not start with
`data:image/`. -/
theorem http_or_https_not_data (u : String)
    (h : jsStartsWith u "http://" = true ∨ jsStartsWith u "https://" = true) :
    jsStartsWith u "data:image/" = false := by
  rw [jsStartsWith]
  by_contra hc
  rw [Bool.not_eq_false, List.isPrefixOf_iff_prefix] at hc
  obtain ⟨t2, h2⟩ := hc
  have hd : "data:image/".data = 'd' :: "ata:image/".data := rfl
  rcases h with h | h
  · rw [jsStartsWith, List.isPrefixOf_iff_prefix] at h
    obtain ⟨t1, h1⟩ := h
    rw [← h1, hd] at h2
    have hh : "http://".data = 'h' :: "ttp://".data := rfl
    rw [hh] at h2
    simp at h2
  · rw [jsStartsWith, List.isPrefixOf_iff_prefix] at h
    obtain ⟨t1, h1⟩ := h
    rw [← h1, hd] at h2
    have hh : "https://".data = 'h' :: "ttps://".data := rfl
    rw [hh] at h2
    simp at h2

/-- Every record produced by the object-storage write loop carries the
loop's email, a url from the input list, and passes the url guards. -/
theorem mem_saveStorageLoop (outcome : Nat → Except String Unit) (userEmail : String) :
    ∀ (urls : List String) (k : Nat) (r : ImageRecord),
      r ∈ (saveStorageLoop outcome userEmail urls k).1 →
      r.email = userEmail ∧ r.url ∈ urls ∧
      jsStartsWith r.url "data:image/" = false ∧
      (jsStartsWith r.url "http://" = true ∨ jsStartsWith r.url "https://" = true) := by
  intro urls
  induction urls with
  | nil => intro k r hr; exact absurd hr (by simp [saveStorageLoop])
  | cons u rest ih =>
    intro k r hr
    unfold saveStorageLoop at hr
    split at hr
    · obtain ⟨he, hu, hd, hh⟩ := ih k r hr
      exact ⟨he, List.mem_cons_of_mem u hu, hd, hh⟩
    · split at hr
      · obtain ⟨he, hu, hd, hh⟩ := ih k r hr
        exact ⟨he, List.mem_cons_of_mem u hu, hd, hh⟩
      · split at hr
        · obtain ⟨he, hu, hd, hh⟩ := ih k r hr
          exact ⟨he, List.mem_cons_of_mem u hu, hd, hh⟩
        · rename_i hguard1 hguard2 hguard3
          cases houtcome : outcome k with
          | ok v =>
            rw [houtcome] at hr
            simp only [List.mem_cons] at hr
            rcases hr with rfl | hr
            · refine ⟨rfl, List.mem_cons_self u rest, ?_, ?_⟩
              · simpa using hguard2
              · have := hguard3
                simp only [Bool.not_eq_true] at this
                rw [Bool.and_eq_false_iff] at this
                simpa using this
            · obtain ⟨he, hu, hd, hh⟩ := ih (k + 1) r hr
              exact ⟨he, List.mem_cons_of_mem u hu, hd, hh⟩
          | error e =>
            rw [houtcome] at hr
            obtain ⟨he, hu, hd, hh⟩ := ih (k + 1) r hr
            exact ⟨he, List.mem_cons_of_mem u hu, hd, hh⟩

/-- When every document-store write succeeds, each input value that
passes the url guards is written (with the loop's email, unchanged). -/
theorem saveStorageLoop_mem_of (outcome : Nat → Except String Unit) (userEmail : String)
    (hall : ∀ k, outcome k = .ok ()) :
    ∀ (urls : List String) (k : Nat) (u : String), u ∈ urls →
      jsStartsWith u "data:image/" = false →
      (jsStartsWith u "http://" = true ∨ jsStartsWith u "https://" = true) →
      (⟨userEmail, u⟩ : ImageRecord) ∈ (saveStorageLoop outcome userEmail urls k).1 := by
  intro urls
  induction urls with
  | nil => intro k u hu; exact absurd hu (List.not_mem_nil u)
  | cons v rest ih =>
    intro k u hu hdata hhttp
    rcases List.mem_cons.mp hu with rfl | hmem
    · have hne : ¬ u = "" := ne_empty_of_jsStartsWith_http u hhttp
      have hb3 : (!jsStartsWith u "http://" && !jsStartsWith u "https://") = false := by
        rcases hhttp with h | h <;> simp [h]
      unfold saveStorageLoop
      rw [if_neg hne]
      simp only [hdata, Bool.false_eq_true, if_false, hb3, hall k]
      exact List.mem_cons_self _ _
    · unfold saveStorageLoop
      split
      · exact ih k u hmem hdata hhttp
      · split
        · exact ih k u hmem hdata hhttp
        · split
          · exact ih k u hmem hdata hhttp
          · simp only [hall k]
            exact List.mem_cons_of_mem _ (ih (k + 1) u hmem hdata hhttp)

/-- The object-storage write loop itself never throws: every
per-record failure is caught and the loop continues. -/
theorem saveStorageLoop_snd (outcome : Nat → Except String Unit) (userEmail : String) :
    ∀ (urls : List String) (k : Nat),
      (saveStorageLoop outcome userEmail urls k).2 = .ok () := by
  intro urls
  induction urls with
  | nil => intro k; rfl
  | cons u rest ih =>
    intro k
    unfold saveStorageLoop
    split
    · exact ih k
    · split
      · exact ih k
      · split
        · exact ih k
        · cases houtcome : outcome k with
          | ok v => simp only [ih]
          | error e => simp only [ih]

/-- Claim C4: in the object-storage persistence path, every value
starting with `data:image/` is skipped and never written to the
document store; every `http://` or `https://` value is written
unchanged as the stored `url`; hence every record written by this path
has an http(s) URL and never an inline payload. -/
theorem saveImages_url_only_invariant (outcome : Nat → Except String Unit)
    (email : Option String) (imageUrls : List String) :
    (∀ r ∈ (saveImagesToFirestore outcome email imageUrls).1,
        jsStartsWith r.url "data:image/" = false
        ∧ (jsStartsWith r.url "http://" = true ∨ jsStartsWith r.url "https://" = true))
    ∧ (∀ u ∈ imageUrls, jsStartsWith u "data:image/" = true →
        ∀ r ∈ (saveImagesToFirestore outcome email imageUrls).1, r.url ≠ u)
    ∧ ((∀ k, outcome k = .ok ()) → ∀ u ∈ imageUrls,
        (jsStartsWith u "http://" = true ∨ jsStartsWith u "https://" = true) →
        (⟨jsOrStr email "anonymous", u⟩ : ImageRecord) ∈
          (saveImagesToFirestore outcome email imageUrls).1) := by
  have hmem : ∀ r ∈ (saveImagesToFirestore outcome email imageUrls).1,
      jsStartsWith r.url "data:image/" = false
      ∧ (jsStartsWith r.url "http://" = true ∨ jsStartsWith r.url "https://" = true) := by
    intro r hr
    unfold saveImagesToFirestore at hr
    split at hr
    · exact absurd hr (List.not_mem_nil r)
    · obtain ⟨-, -, hd, hh⟩ := mem_saveStorageLoop outcome (jsOrStr email "anonymous")
        imageUrls 0 r hr
      exact ⟨hd, hh⟩
  refine ⟨hmem, ?_, ?_⟩
  · intro u _ hu r hr hru
    obtain ⟨hd, -⟩ := hmem r hr
    rw [hru] at hd
    rw [hu] at hd
    exact absurd hd (by simp)
  · intro hall u humem hhttp
    have hdata := http_or_https_not_data u hhttp
    unfold saveImagesToFirestore
    split
    · rename_i hempty
      rw [List.isEmpty_iff] at hempty
      rw [hempty] at humem
      exact absurd humem (List.not_mem_nil u)
    · exact saveStorageLoop_mem_of outcome (jsOrStr email "anonymous") hall
        imageUrls 0 u humem hdata hhttp

/-- Witness for C4: with one inline value and one https URL, exactly
the https record is written, unchanged. -/
theorem saveImages_url_only_invariant_witness :
    (⟨"a@b.c", "https://storage.googleapis.com/bucket/x.png"⟩ : ImageRecord) ∈
      (saveImagesToFirestore (fun _ => .ok ()) (some "a@b.c")
        ["data:image/png;base64,AAAA", "https://storage.googleapis.com/bucket/x.png"]).1 :=
  (saveImages_url_only_invariant (fun _ => .ok ()) (some "a@b.c")
      ["data:image/png;base64,AAAA", "https://storage.googleapis.com/bucket/x.png"]).2.2
    (fun _ => rfl) "https://storage.googleapis.com/bucket/x.png" (by decide) (by decide)

/-- Claim C5: persistence of generated images is best-effort — for
every input and every behaviour of the document store, both variants
of `saveImagesToFirestore` return normally (the outer catch swallows
every persistence failure), so no error propagates to the HTTP caller
of `/generate` or `/generate-auto`. -/
theorem saveImages_best_effort :
    (∀ (outcome : Nat → Except String Unit) (email : Option String)
        (imageUrls : List String),
        (saveImagesToFirestore outcome email imageUrls).2 = .ok ())
    ∧ (∀ (outcome : Nat → Except String Unit) (email : Option String)
        (imageUrls : List String),
        (saveImagesToFirestoreInline outcome email imageUrls).2 = .ok ()) := by
  constructor
  · intro outcome email imageUrls
    unfold saveImagesToFirestore
    split
    · rfl
    · rw [saveStorageLoop_snd]
      rfl
  · intro outcome email imageUrls
    unfold saveImagesToFirestoreInline
    cases (saveInlineLoop outcome (jsOrStr email "anonymous") imageUrls 0).2 with
    | ok v => rfl
    | error e => rfl

/-- Claim C7: the prompt builder is a pure total function over style
keys — every style key (in particular every key of the enumerated set)
yields a prompt that contains the fidelity clause verbatim (as a
suffix, after a space), and every unrecognized or absent key yields
the default neutral-portrait prompt, which also contains the clause;
no style key causes an error. -/
theorem buildStylePrompt_fidelity :
    (∀ style : Option String, ∃ pre, buildStylePrompt style = pre ++ fidelityClauseText)
    ∧ buildStylePrompt none =
        addFidelityRequirements "Realistic portrait of the user with a neutral background."
    ∧ (∀ s : String, s ∉ styleKeys →
        buildStylePrompt (some s) =
          addFidelityRequirements "Realistic portrait of the user with a neutral background.") := by
  refine ⟨?_, rfl, ?_⟩
  · intro style
    exact ⟨styleBase style ++ " ", rfl⟩
  · intro s hs
    unfold buildStylePrompt
    congr 1
    have hfind : styleTable.find? (fun kv => decide (kv.1 = s)) = none := by
      rw [List.find?_eq_none]
      intro kv hkv
      simp only [decide_eq_true_eq]
      intro heq
      exact hs (heq ▸ List.mem_map_of_mem Prod.fst hkv)
    have hsome : styleBase (some s) =
        match styleTable.find? (fun kv => decide (kv.1 = s)) with
        | some kv => kv.2
        | none => defaultBasePrompt := rfl
    rw [hsome, hfind]
    rfl

/-- Witness for C7: the unrecognized key `unknown_style` yields the
default neutral-portrait prompt. -/
theorem buildStylePrompt_fidelity_witness :
    ("unknown_style" ∉ styleKeys)
    ∧ buildStylePrompt (some "unknown_style") =
        addFidelityRequirements "Realistic portrait of the user with a neutral background." :=
  ⟨by decide, buildStylePrompt_fidelity.2.2 "unknown_style" (by decide)⟩

/-- Inserting into the date-sorted list is a permutation. -/
theorem insertByDate_perm (x : GalleryImage) (l : List GalleryImage) :
    List.Perm (insertByDate x l) (x :: l) := by
  induction l with
  | nil => exact List.Perm.refl _
  | cons y ys ih =>
    unfold insertByDate
    split
    · exact (ih.cons y).trans (List.Perm.swap x y ys)
    · exact List.Perm.refl _

/-- The date sort is a permutation. -/
theorem sortByDateDesc_perm (l : List GalleryImage) :
    List.Perm (sortByDateDesc l) l := by
  induction l with
  | nil => exact List.Perm.refl _
  | cons x xs ih => exact (insertByDate_perm x (sortByDateDesc xs)).trans (ih.cons x)

/-- The gallery scan keeps exactly the accepted documents, in order,
and counts exactly the others. -/
theorem galleryScan_eq (docs : List GalleryDoc) :
    galleryScan docs =
      ((docs.filter (fun d => galleryAccepts (galleryUrlValue d))).map docToImage,
        (docs.filter (fun d => !galleryAccepts (galleryUrlValue d))).length) := by
  induction docs with
  | nil => rfl
  | cons d rest ih =>
    unfold galleryScan
    rw [ih]
    cases h : galleryAccepts (galleryUrlValue d) <;> simp [List.filter_cons, h]

/-- Splitting a list by a boolean test accounts for every element. -/
theorem length_filter_add_length_filter_not {α : Type} (p : α → Bool) (l : List α) :
    (l.filter p).length + (l.filter (fun x => !p x)).length = l.length := by
  induction l with
  | nil => rfl
  | cons x xs ih =>
    cases h : p x <;> simp [List.filter_cons, h] <;> omega

/-- Claim C8: gallery retrieval returns exactly the stored records
whose url starts with `data:image/` and is longer than 50 characters;
every other record is excluded and counted in `omittedCount` rather
than raised as an error, and the response `count` equals the number of
returned images. -/
theorem gallery_filter_spec (docs : List GalleryDoc) :
    (∀ img ∈ (galleryResponse docs).images,
        jsStartsWith img.url "data:image/" = true ∧ img.url.length > 50)
    ∧ List.Perm (galleryResponse docs).images
        ((docs.filter (fun d => galleryAccepts (galleryUrlValue d))).map docToImage)
    ∧ (galleryResponse docs).omittedCount =
        (docs.filter (fun d => !galleryAccepts (galleryUrlValue d))).length
    ∧ (galleryResponse docs).count = (galleryResponse docs).images.length
    ∧ (galleryResponse docs).count + (galleryResponse docs).omittedCount = docs.length := by
  have hscan := galleryScan_eq docs
  have hperm : List.Perm (galleryResponse docs).images
      ((docs.filter (fun d => galleryAccepts (galleryUrlValue d))).map docToImage) := by
    unfold galleryResponse
    simp only
    rw [hscan]
    exact sortByDateDesc_perm _
  refine ⟨?_, hperm, ?_, rfl, ?_⟩
  · intro img himg
    have hmapped : img ∈ (docs.filter (fun d => galleryAccepts (galleryUrlValue d))).map docToImage :=
      hperm.mem_iff.mp himg
    obtain ⟨d, hd, rfl⟩ := List.mem_map.mp hmapped
    have hacc : galleryAccepts (galleryUrlValue d) = true := (List.mem_filter.mp hd).2
    unfold galleryAccepts at hacc
    simp only [Bool.and_eq_true, decide_eq_true_eq] at hacc
    exact ⟨hacc.2, hacc.1.2⟩
  · unfold galleryResponse
    simp only
    rw [hscan]
  · unfold galleryResponse
    simp only
    rw [hscan]
    simp only [(sortByDateDesc_perm _).length_eq, List.length_map]
    exact length_filter_add_length_filter_not _ docs

/-- Accepted document for the C8 witness: a long inline data URL. -/
def c8Doc1 : GalleryDoc :=
  { id := "doc1",
    url := some "data:image/png;base64,AAAAAAAAAAAAAAAAAAAAAAAAAAAAAAAAAAAAAAAA",
    style := some "street", prompt := some "p", photosCount := some 2,
    originalLength := none, created_at := 100 }

/-- Rejected document for the C8 witness: an https URL. -/
def c8Doc2 : GalleryDoc :=
  { id := "doc2", url := some "https://storage.googleapis.com/bucket/y.png",
    style := none, prompt := none, photosCount := none,
    originalLength := none, created_at := 200 }

/-- Witness for C8: the inline record is returned (with its guaranteed
prefix and length), the https record is omitted and counted. -/
theorem gallery_filter_spec_witness :
    (docToImage c8Doc1 ∈ (galleryResponse [c8Doc1, c8Doc2]).images
      ∧ jsStartsWith (docToImage c8Doc1).url "data:image/" = true
      ∧ (docToImage c8Doc1).url.length > 50)
    ∧ (galleryResponse [c8Doc1, c8Doc2]).count = 1
    ∧ (galleryResponse [c8Doc1, c8Doc2]).omittedCount = 1 := by
  have hmem : docToImage c8Doc1 ∈ (galleryResponse [c8Doc1, c8Doc2]).images := by decide
  exact ⟨⟨hmem, (gallery_filter_spec [c8Doc1, c8Doc2]).1 (docToImage c8Doc1) hmem⟩,
    by decide, by decide⟩
